import Mathlib

/-!
Shallow embedding of the WhatsApp auto-replier backend:
the inbound webhook handler (index.js), the reply generator
(services/LLMService.js, `generateReply`) and the message sender
(services/WhatsAppService.js, `sendTextMessage` / `sendTemplateMessage`).

External I/O (the Gemini generation call, the Vonage send call, JSON
parsing of the raw body, and client initialization) is modelled by
explicit outcome parameters; the embedding computes the trace of service
calls the handler makes together with the HTTP response it returns.
-/

/-- JavaScript truthiness of an optional string field of a parsed JSON
payload: `undefined` and the empty string are falsy, every other string
is truthy. -/
def jsTruthy : Option String → Bool
  | none => false
  | some s => s != ""

/-- JavaScript `s.replace(c, "")` on a single-character string pattern:
removes the first occurrence of `c` (if any) from the character list. -/
def jsReplaceFirst (c : Char) : List Char → List Char
  | [] => []
  | x :: xs => if x = c then xs else x :: jsReplaceFirst c xs

/-- `this.vonageWhatsAppNumber.replace('+', '')` from
`WhatsAppService.sendTextMessage`: the configured sender number with the
first occurrence of the plus character removed. -/
def cleanedFromNumber (vonageWhatsAppNumber : String) : String :=
  String.mk (jsReplaceFirst '+' vonageWhatsAppNumber.data)

/-- Outcome of `LLMService._initializeClient()`: either the dynamic
module load and client construction succeeded (and `this.ai` is set),
or it threw, leaving `this.isReady` a rejected promise carrying the
error. -/
inductive InitOutcome where
  | ok : InitOutcome
  | failed (errMsg : String) : InitOutcome
deriving DecidableEq, Repr

/-- Outcome of the underlying `this.ai.models.generateContent` call:
either a response whose `text` field is the given string, or any thrown
error (network, quota, malformed response). -/
inductive ModelOutcome where
  | ok (text : String) : ModelOutcome
  | err (errMsg : String) : ModelOutcome
deriving DecidableEq, Repr

/-- Outcome of the underlying `this.vonage.messages.send` call. -/
inductive SendOutcome where
  | ok (uuid : String) : SendOutcome
  | err (errMsg : String) : SendOutcome
deriving DecidableEq, Repr

/-- One entry of the `contents` array passed to the generation call. -/
structure ContentPart where
  role : String
  text : String
deriving DecidableEq, Repr

/-- The generation request issued by `generateReply`: model identifier,
conversation contents, whether the `googleSearch` tool is in the tools
list, the system instruction, and the temperature. -/
structure GenRequest where
  model : String
  contents : List ContentPart
  googleSearchTool : Bool
  systemInstruction : String
  temperature : ℚ
deriving DecidableEq, Repr

/-- Result of a call to `generateReply`: it either returns a string or
throws an error. -/
inductive GenReplyResult where
  | ret (s : String) : GenReplyResult
  | thrown (errMsg : String) : GenReplyResult
deriving DecidableEq, Repr

/-- The fixed user-facing apology string returned by `generateReply`
when the underlying generation call throws. -/
def fallbackApology : String :=
  "Apologies, Sohan! I\x27m running into a core system error. Could you please rephrase your request or try a technical topic?"

/-- The model identifier configured in the `LLMService` constructor. -/
def geminiModel : String := "gemini-2.5-flash"

/-- `LLMService.generateReply(userMessage)`. First awaits `this.isReady`:
if initialization failed, that await rethrows the initialization error
before any generation call is attempted (the subsequent `!this.ai` guard
is unreachable, since a resolved `isReady` implies `this.ai` is set).
Otherwise it issues exactly one generation call with the single user
message, the googleSearch tool, the precomputed system prompt and
temperature 0.6; on a response it returns `response.text.trim()`, and on
any thrown error it returns the fixed apology string. The second
component of the result is the list of generation requests issued. -/
def generateReply (init : InitOutcome) (systemPrompt userMessage : String)
    (modelCall : ModelOutcome) : GenReplyResult × List GenRequest :=
  match init with
  | InitOutcome.failed e => (GenReplyResult.thrown e, [])
  | InitOutcome.ok =>
    let request : GenRequest :=
      { model := geminiModel
        contents := [{ role := "user", text := userMessage }]
        googleSearchTool := true
        systemInstruction := systemPrompt
        temperature := (0.6 : ℚ) }
    match modelCall with
    | ModelOutcome.ok responseText => (GenReplyResult.ret responseText.trim, [request])
    | ModelOutcome.err _ => (GenReplyResult.ret fallbackApology, [request])

/-- The message object passed to `this.vonage.messages.send` by
`sendTextMessage`. -/
structure TextMessagePayload where
  to_ : Option String
  from_ : String
  messageType : String
  text : String
  channel : String
deriving DecidableEq, Repr

/-- The message object `sendTextMessage` builds: `from` is the
configured sender number with its first plus character removed. -/
def sendTextMessagePayload (vonageWhatsAppNumber : String) (to_ : Option String)
    (text : String) : TextMessagePayload :=
  { to_ := to_
    from_ := cleanedFromNumber vonageWhatsAppNumber
    messageType := "text"
    text := text
    channel := "whatsapp" }

/-- `WhatsAppService.sendTextMessage(to, text)`: builds the outbound
payload and attempts the provider send; on provider failure it throws a
new error wrapping the provider message. The second component is the
payload handed to the provider. -/
def sendTextMessage (vonageWhatsAppNumber : String) (to_ : Option String)
    (text : String) (provider : SendOutcome) : Except String String × TextMessagePayload :=
  let payload := sendTextMessagePayload vonageWhatsAppNumber to_ text
  (match provider with
    | SendOutcome.ok uuid => Except.ok uuid
    | SendOutcome.err m => Except.error ("Failed to send WhatsApp message: " ++ m),
   payload)

/-- A parameter inside a template component: either an image reference
(header) or a positional text slot (body). -/
inductive TemplateParam where
  | image (url : String) : TemplateParam
  | text (t : String) : TemplateParam
deriving DecidableEq, Repr

/-- One element of the `components` array of a template message. -/
structure Component where
  type : String
  parameters : List TemplateParam
deriving DecidableEq, Repr

/-- One element of the `bodyParameters` argument of
`sendTemplateMessage`, an object with a `value` field. -/
structure BodyParam where
  value : String
deriving DecidableEq, Repr

/-- The components array built by `sendTemplateMessage`: a header
component with the image URL is pushed first when `mediaUrl` is truthy,
then a body component with one text slot per body parameter (in order)
is pushed when `bodyParameters` is non-empty. -/
def buildComponents (bodyParameters : List BodyParam)
    (mediaUrl : Option String) : List Component :=
  let components : List Component := []
  let components :=
    if jsTruthy mediaUrl then
      components ++ [{ type := "header"
                       parameters := [TemplateParam.image (mediaUrl.getD "")] }]
    else components
  if bodyParameters.length > 0 then
    components ++ [{ type := "body"
                     parameters := bodyParameters.map (fun p => TemplateParam.text p.value) }]
  else components

/-- The message object passed to `this.vonage.messages.send` by
`sendTemplateMessage`. -/
structure TemplateMessagePayload where
  to_ : String
  from_ : String
  channel : String
  messageType : String
  templateName : String
  languageCode : String
  components : List Component
deriving DecidableEq, Repr

/-- The message object `sendTemplateMessage` builds: unlike
`sendTextMessage`, `from` is the configured sender number verbatim. -/
def sendTemplateMessagePayload (vonageWhatsAppNumber to_ templateName templateLanguage : String)
    (bodyParameters : List BodyParam) (mediaUrl : Option String) : TemplateMessagePayload :=
  { to_ := to_
    from_ := vonageWhatsAppNumber
    channel := "whatsapp"
    messageType := "template"
    templateName := templateName
    languageCode := templateLanguage
    components := buildComponents bodyParameters mediaUrl }

/-- A parsed inbound webhook payload, with the fields the handler reads
(each optional, since the JSON object need not contain them). -/
structure InboundPayload where
  from_ : Option String
  message_type : Option String
  text : Option String
  status : Option String
  messageId : Option String
deriving DecidableEq, Repr

/-- What one run of the webhook handler did: the HTTP status and body it
responded with, the arguments of its calls to `generateReply`, the
generation requests actually issued to the model backend, and the
payloads of its calls to `sendTextMessage`. -/
structure HandlerTrace where
  status : Nat
  body : String
  genReplyCalls : List String
  genRequests : List GenRequest
  sendCalls : List TextMessagePayload
deriving DecidableEq, Repr

/-- The `POST /vonage/inbound` handler. `parsed` is the outcome of
`JSON.parse(req.body)` (`none` = parse threw). On parse failure it
responds 400 and stops. For a payload with `message_type === 'text'`
and truthy `text` it calls `generateReply` once; if that returns, it
calls `sendTextMessage` once with the sender id and the returned string;
any error thrown by either step is caught and only logged. Every other
payload is only logged. In all parsed cases it responds 200. -/
def handleInbound (parsed : Option InboundPayload) (vonageWhatsAppNumber : String)
    (init : InitOutcome) (systemPrompt : String) (gen : ModelOutcome)
    (send : SendOutcome) : HandlerTrace :=
  match parsed with
  | none =>
    { status := 400
      body := "Invalid JSON payload."
      genReplyCalls := []
      genRequests := []
      sendCalls := [] }
  | some message =>
    if message.message_type == some "text" && jsTruthy message.text then
      let textContent := message.text.getD ""
      match generateReply init systemPrompt textContent gen with
      | (GenReplyResult.ret llmReply, reqs) =>
        let sendRun := sendTextMessage vonageWhatsAppNumber message.from_ llmReply send
        { status := 200
          body := "Message processed successfully."
          genReplyCalls := [textContent]
          genRequests := reqs
          sendCalls := [sendRun.2] }
      | (GenReplyResult.thrown _, reqs) =>
        { status := 200
          body := "Message processed successfully."
          genReplyCalls := [textContent]
          genRequests := reqs
          sendCalls := [] }
    else
      { status := 200
        body := "Message processed successfully."
        genReplyCalls := []
        genRequests := []
        sendCalls := [] }

/-! Helper lemmas about `jsReplaceFirst`. -/

/-- If `c` does not occur in `l`, removing its first occurrence is the
identity. -/
theorem jsReplaceFirst_not_mem (c : Char) : ∀ l : List Char, c ∉ l → jsReplaceFirst c l = l
  | [], _ => rfl
  | x :: xs, h => by
    rw [List.mem_cons, not_or] at h
    have hxc : ¬(x = c) := fun hx => h.1 hx.symm
    simp only [jsReplaceFirst, if_neg hxc]
    rw [jsReplaceFirst_not_mem c xs h.2]

/-- Removing the first occurrence of `c` from `a ++ c :: b`, where `a`
is `c`-free, yields `a ++ b`. -/
theorem jsReplaceFirst_first_occ (c : Char) : ∀ a b : List Char, c ∉ a →
    jsReplaceFirst c (a ++ c :: b) = a ++ b
  | [], b, _ => by simp [jsReplaceFirst]
  | x :: xs, b, h => by
    rw [List.mem_cons, not_or] at h
    have hxc : ¬(x = c) := fun hx => h.1 hx.symm
    simp only [List.cons_append, jsReplaceFirst, if_neg hxc, List.append_eq]
    rw [jsReplaceFirst_first_occ c xs b h.2]

/-- If `c` occurs in `l`, removing its first occurrence shortens `l` by
one character. -/
theorem jsReplaceFirst_length_of_mem (c : Char) : ∀ l : List Char, c ∈ l →
    (jsReplaceFirst c l).length + 1 = l.length
  | x :: xs, h => by
    by_cases hx : x = c
    · simp [jsReplaceFirst, hx]
    · have hm : c ∈ xs := by
        rcases List.mem_cons.mp h with h1 | h1
        · exact absurd h1.symm hx
        · exact h1
      have ih := jsReplaceFirst_length_of_mem c xs hm
      simp only [jsReplaceFirst, if_neg hx, List.length_cons]
      omega

/-- C2: a webhook request whose raw body fails to parse as JSON is
answered with status 400 and triggers no `generateReply` call, no
generation request and no send call. -/
theorem invalid_json_400_no_calls (v sys : String) (init : InitOutcome)
    (gen : ModelOutcome) (send : SendOutcome) :
    handleInbound none v init sys gen send =
      { status := 400
        body := "Invalid JSON payload."
        genReplyCalls := []
        genRequests := []
        sendCalls := [] } := rfl

/-- C6: on a successful generation call, `generateReply` returns the
model text trimmed and otherwise verbatim, and issues exactly one
generation request whose contents are the single user message, whose
configuration has the google search tool enabled, carries the
precomputed system instruction and temperature 0.6. -/
theorem generateReply_success_spec (sys u t : String) :
    generateReply InitOutcome.ok sys u (ModelOutcome.ok t) =
      (GenReplyResult.ret t.trim,
       [{ model := geminiModel
          contents := [{ role := "user", text := u }]
          googleSearchTool := true
          systemInstruction := sys
          temperature := (0.6 : ℚ) }]) := rfl

/-- C7: if client initialization failed, every `generateReply` call
fails by rethrowing the initialization error: it issues no generation
request and never returns a string (in particular not the apology). -/
theorem generateReply_init_failed (e sys u : String) (mo : ModelOutcome) :
    generateReply (InitOutcome.failed e) sys u mo = (GenReplyResult.thrown e, []) ∧
    (∀ s, (generateReply (InitOutcome.failed e) sys u mo).1 ≠ GenReplyResult.ret s) := by
  refine ⟨rfl, ?_⟩
  intro s h
  exact GenReplyResult.noConfusion h

/-- Witness for C7 at a concrete initialization error. -/
theorem generateReply_init_failed_witness :
    generateReply (InitOutcome.failed "ERR_REQUIRE_ESM") "sys" "hello" (ModelOutcome.ok "x") =
      (GenReplyResult.thrown "ERR_REQUIRE_ESM", []) :=
  (generateReply_init_failed "ERR_REQUIRE_ESM" "sys" "hello" (ModelOutcome.ok "x")).1

/-- C1: a parsed payload with `message_type` "text" and non-empty text
produces exactly one `generateReply` call (with that text); whenever
that call returns a string (success or fallback), exactly one send call
occurs, carrying that string to the sender id; and the handler responds
200. -/
theorem inbound_text_one_generate_one_send (message : InboundPayload)
    (v sys : String) (init : InitOutcome) (gen : ModelOutcome) (send : SendOutcome)
    (htype : message.message_type = some "text")
    (htext : jsTruthy message.text = true) :
    (handleInbound (some message) v init sys gen send).genReplyCalls =
      [message.text.getD ""] ∧
    (handleInbound (some message) v init sys gen send).status = 200 ∧
    (∀ r, (generateReply init sys (message.text.getD "") gen).1 = GenReplyResult.ret r →
      (handleInbound (some message) v init sys gen send).sendCalls =
        [sendTextMessagePayload v message.from_ r]) := by
  have hcond : (message.message_type == some "text" && jsTruthy message.text) = true := by
    rw [htype, htext]; rfl
  cases init with
  | failed e =>
    refine ⟨?_, ?_, ?_⟩
    · simp [handleInbound, hcond, generateReply]
    · simp [handleInbound, hcond, generateReply]
    · intro r h
      exact absurd h (by simp [generateReply])
  | ok =>
    cases gen with
    | ok t =>
      refine ⟨?_, ?_, ?_⟩
      · simp [handleInbound, hcond, generateReply]
      · simp [handleInbound, hcond, generateReply]
      · intro r h
        simp only [generateReply] at h
        cases h
        simp [handleInbound, hcond, generateReply, sendTextMessage]
    | err e =>
      refine ⟨?_, ?_, ?_⟩
      · simp [handleInbound, hcond, generateReply]
      · simp [handleInbound, hcond, generateReply]
      · intro r h
        simp only [generateReply] at h
        cases h
        simp [handleInbound, hcond, generateReply, sendTextMessage]

/-- Witness for C1 at a concrete text payload where the generation call
errs (so `generateReply` returns the fallback string) and the send
succeeds. -/
theorem inbound_text_one_generate_one_send_witness :
    (handleInbound
        (some { from_ := some "+15550001111", message_type := some "text",
                text := some "What is the VIP price?", status := none, messageId := none })
        "+14157386102" InitOutcome.ok "sysPrompt"
        (ModelOutcome.err "network down") (SendOutcome.ok "uuid-1")).genReplyCalls =
      ["What is the VIP price?"] ∧
    (handleInbound
        (some { from_ := some "+15550001111", message_type := some "text",
                text := some "What is the VIP price?", status := none, messageId := none })
        "+14157386102" InitOutcome.ok "sysPrompt"
        (ModelOutcome.err "network down") (SendOutcome.ok "uuid-1")).status = 200 ∧
    (handleInbound
        (some { from_ := some "+15550001111", message_type := some "text",
                text := some "What is the VIP price?", status := none, messageId := none })
        "+14157386102" InitOutcome.ok "sysPrompt"
        (ModelOutcome.err "network down") (SendOutcome.ok "uuid-1")).sendCalls =
      [sendTextMessagePayload "+14157386102" (some "+15550001111") fallbackApology] := by
  have h := inbound_text_one_generate_one_send
    { from_ := some "+15550001111", message_type := some "text",
      text := some "What is the VIP price?", status := none, messageId := none }
    "+14157386102" "sysPrompt" InitOutcome.ok
    (ModelOutcome.err "network down") (SendOutcome.ok "uuid-1") rfl rfl
  exact ⟨h.1, h.2.1, h.2.2 fallbackApology rfl⟩

/-- C3: when the underlying generation call errs for any reason,
`generateReply` returns the fixed apology string (a returned string, not
a thrown error, and non-empty), and for a text payload exactly that
string is the text of the message handed to `sendTextMessage`. -/
theorem generation_error_sends_apology (message : InboundPayload)
    (v sys e : String) (send : SendOutcome)
    (htype : message.message_type = some "text")
    (htext : jsTruthy message.text = true) :
    (generateReply InitOutcome.ok sys (message.text.getD "") (ModelOutcome.err e)).1 =
      GenReplyResult.ret fallbackApology ∧
    fallbackApology ≠ "" ∧
    (handleInbound (some message) v InitOutcome.ok sys (ModelOutcome.err e) send).sendCalls =
      [sendTextMessagePayload v message.from_ fallbackApology] ∧
    (sendTextMessagePayload v message.from_ fallbackApology).text = fallbackApology := by
  have hcond : (message.message_type == some "text" && jsTruthy message.text) = true := by
    rw [htype, htext]; rfl
  refine ⟨rfl, by decide, ?_, rfl⟩
  simp [handleInbound, hcond, generateReply, sendTextMessage]

/-- Witness for C3 at a concrete text payload and a concrete provider
error. -/
theorem generation_error_sends_apology_witness :
    (handleInbound
        (some { from_ := some "+15550001111", message_type := some "text",
                text := some "hello", status := none, messageId := none })
        "+14157386102" InitOutcome.ok "sysPrompt"
        (ModelOutcome.err "quota exceeded") (SendOutcome.ok "uuid-2")).sendCalls =
      [sendTextMessagePayload "+14157386102" (some "+15550001111") fallbackApology] := by
  have h := generation_error_sends_apology
    { from_ := some "+15550001111", message_type := some "text",
      text := some "hello", status := none, messageId := none }
    "+14157386102" "sysPrompt" "quota exceeded" (SendOutcome.ok "uuid-2") rfl rfl
  exact h.2.2.1

/-- C4: a parsed payload whose `message_type` is not "text", or whose
text is missing or empty, produces no `generateReply` call, no
generation request and no send call, and the handler responds 200. -/
theorem non_text_no_calls (message : InboundPayload) (v sys : String)
    (init : InitOutcome) (gen : ModelOutcome) (send : SendOutcome)
    (h : message.message_type ≠ some "text" ∨ jsTruthy message.text = false) :
    handleInbound (some message) v init sys gen send =
      { status := 200
        body := "Message processed successfully."
        genReplyCalls := []
        genRequests := []
        sendCalls := [] } := by
  have hcond : (message.message_type == some "text" && jsTruthy message.text) = false := by
    rcases h with h | h
    · simp [h]
    · simp [h]
  simp [handleInbound, hcond]

/-- Witness for C4 at a concrete image payload. -/
theorem non_text_no_calls_witness :
    handleInbound
      (some { from_ := some "+15550001111", message_type := some "image",
              text := none, status := none, messageId := none })
      "+14157386102" InitOutcome.ok "sysPrompt"
      (ModelOutcome.ok "unused") (SendOutcome.ok "uuid-3") =
      { status := 200
        body := "Message processed successfully."
        genReplyCalls := []
        genRequests := []
        sendCalls := [] } :=
  non_text_no_calls
    { from_ := some "+15550001111", message_type := some "image",
      text := none, status := none, messageId := none }
    "+14157386102" "sysPrompt" InitOutcome.ok
    (ModelOutcome.ok "unused") (SendOutcome.ok "uuid-3")
    (Or.inl (by decide))

/-- C5: in the components list built by `sendTemplateMessage`, a
non-empty `mediaUrl` makes the first element a header component with
that image URL; with `mediaUrl` omitted no header component occurs; and
non-empty `bodyParameters` append a body component whose text slots are
the parameter values, 1:1 and order-preserved. -/
theorem sendTemplate_components_spec (v to_ tn tl : String) (bps : List BodyParam) :
    (∀ u : String, u ≠ "" →
      (sendTemplateMessagePayload v to_ tn tl bps (some u)).components.head? =
        some { type := "header", parameters := [TemplateParam.image u] }) ∧
    ((sendTemplateMessagePayload v to_ tn tl bps none).components.all
      (fun c => c.type != "header") = true) ∧
    (∀ mediaUrl : Option String, bps ≠ [] →
      (sendTemplateMessagePayload v to_ tn tl bps mediaUrl).components.getLast? =
        some { type := "body"
               parameters := bps.map (fun p => TemplateParam.text p.value) }) := by
  refine ⟨?_, ?_, ?_⟩
  · intro u hu
    have ht : jsTruthy (some u) = true := by simp [jsTruthy, hu]
    simp only [sendTemplateMessagePayload, buildComponents, ht, if_true, List.nil_append]
    split
    · rfl
    · rfl
  · simp only [sendTemplateMessagePayload, buildComponents, jsTruthy, Bool.false_eq_true,
      if_false]
    split
    · rfl
    · rfl
  · intro mediaUrl hbps
    have hlen : bps.length > 0 := List.length_pos.mpr hbps
    simp only [sendTemplateMessagePayload, buildComponents, hlen, if_true]
    cases hm : jsTruthy mediaUrl
    · simp
    · simp [List.getLast?_append_cons]

/-- Witness for C5: with a concrete media URL and one body parameter,
the first component is the header and the last is the body. -/
theorem sendTemplate_components_spec_witness :
    (sendTemplateMessagePayload "14157386102" "+15550001111" "athens_cruise_intro" "en"
        [{ value := "Sohan" }] (some "https://example.com/banner.jpg")).components.head? =
      some { type := "header"
             parameters := [TemplateParam.image "https://example.com/banner.jpg"] } ∧
    (sendTemplateMessagePayload "14157386102" "+15550001111" "athens_cruise_intro" "en"
        [{ value := "Sohan" }] (some "https://example.com/banner.jpg")).components.getLast? =
      some { type := "body", parameters := [TemplateParam.text "Sohan"] } := by
  have h := sendTemplate_components_spec "14157386102" "+15550001111" "athens_cruise_intro" "en"
    [{ value := "Sohan" }]
  exact ⟨h.1 "https://example.com/banner.jpg" (by decide),
         h.2.2 (some "https://example.com/banner.jpg") (by decide)⟩

/-- C8: on provider failure, `sendTextMessage` throws an error wrapping
the provider message; inside the webhook pipeline for a text payload
that error is caught at the handler boundary, the send attempt is still
the single send call, and the handler responds 200. -/
theorem send_failure_wrapped_and_200 (message : InboundPayload)
    (v sys m : String) (gen : ModelOutcome)
    (htype : message.message_type = some "text")
    (htext : jsTruthy message.text = true) :
    (∀ (to_ : Option String) (text : String),
      (sendTextMessage v to_ text (SendOutcome.err m)).1 =
        Except.error ("Failed to send WhatsApp message: " ++ m)) ∧
    (handleInbound (some message) v InitOutcome.ok sys gen (SendOutcome.err m)).status = 200 ∧
    (handleInbound (some message) v InitOutcome.ok sys gen (SendOutcome.err m)).sendCalls.length
      = 1 := by
  have hcond : (message.message_type == some "text" && jsTruthy message.text) = true := by
    rw [htype, htext]; rfl
  refine ⟨fun to_ text => rfl, ?_, ?_⟩
  · cases gen <;> simp [handleInbound, hcond, generateReply]
  · cases gen <;> simp [handleInbound, hcond, generateReply]

/-- Witness for C8 at a concrete text payload and provider error. -/
theorem send_failure_wrapped_and_200_witness :
    (sendTextMessage "+14157386102" (some "+15550001111") "hello"
        (SendOutcome.err "401 Unauthorized")).1 =
      Except.error ("Failed to send WhatsApp message: " ++ "401 Unauthorized") ∧
    (handleInbound
        (some { from_ := some "+15550001111", message_type := some "text",
                text := some "hello", status := none, messageId := none })
        "+14157386102" InitOutcome.ok "sysPrompt"
        (ModelOutcome.err "quota") (SendOutcome.err "401 Unauthorized")).status = 200 := by
  have h := send_failure_wrapped_and_200
    { from_ := some "+15550001111", message_type := some "text",
      text := some "hello", status := none, messageId := none }
    "+14157386102" "sysPrompt" "401 Unauthorized" (ModelOutcome.err "quota") rfl rfl
  exact ⟨h.1 (some "+15550001111") "hello", h.2.1⟩

/-- Counterexample to C9 as stated: for the configured sender
"12+34" (no leading plus, so the claim requires the `from` field to
equal it verbatim) the code removes the interior plus instead. -/
theorem sendText_sender_counterexample :
    (sendTextMessagePayload "12+34" (some "15550001111") "hi").from_ = "1234" ∧
    "1234" ≠ "12+34" := by
  constructor
  · decide
  · decide

/-- C9 amended: the `from` field of the outbound text message is the
configured sender with the first occurrence of the plus character
removed: it equals `s` whenever `s` contains no plus, and for
`s = a ++ plus :: b` with plus-free `a` it equals `a ++ b` (so a leading
plus in particular is stripped). -/
theorem sendText_sender_strips_first_plus (s text : String) (to_ : Option String) :
    ((sendTextMessagePayload s to_ text).from_ = cleanedFromNumber s) ∧
    ('+' ∉ s.data → (sendTextMessagePayload s to_ text).from_ = s) ∧
    (∀ a b : List Char, s.data = a ++ '+' :: b → '+' ∉ a →
      (sendTextMessagePayload s to_ text).from_ = String.mk (a ++ b)) := by
  refine ⟨rfl, ?_, ?_⟩
  · intro h
    show String.mk (jsReplaceFirst '+' s.data) = s
    rw [jsReplaceFirst_not_mem '+' s.data h]
  · intro a b hab hna
    show String.mk (jsReplaceFirst '+' s.data) = String.mk (a ++ b)
    rw [hab, jsReplaceFirst_first_occ '+' a b hna]

/-- Witness for the amended C9: a leading plus is stripped from a
concrete configured sender. -/
theorem sendText_sender_strips_first_plus_witness :
    (sendTextMessagePayload "+14157386102" none "hi").from_ = "14157386102" := by
  have h := (sendText_sender_strips_first_plus "+14157386102" "hi" none).2.2
    [] ("14157386102" : String).data (by decide) (by decide)
  exact h

/-- C10: whenever the configured sender number contains a plus,
`sendTextMessage` (which removes the first plus occurrence) and
`sendTemplateMessage` (which copies the configured number verbatim) put
different sender identities in the outbound `from` field. -/
theorem template_and_text_sender_differ (s : String) (h : '+' ∈ s.data)
    (to₁ : Option String) (text to₂ tn tl : String) (bps : List BodyParam)
    (mediaUrl : Option String) :
    (sendTextMessagePayload s to₁ text).from_ = cleanedFromNumber s ∧
    (sendTextMessagePayload s to₁ text).from_ ≠ s ∧
    (sendTemplateMessagePayload s to₂ tn tl bps mediaUrl).from_ = s := by
  have hlen := jsReplaceFirst_length_of_mem '+' s.data h
  refine ⟨rfl, ?_, rfl⟩
  intro he
  have hdata : jsReplaceFirst '+' s.data = s.data := congrArg String.data he
  rw [hdata] at hlen
  omega

/-- Witness for C10 at a concrete configured sender with a leading
plus. -/
theorem template_and_text_sender_differ_witness :
    (sendTextMessagePayload "+14157386102" (some "x") "hi").from_ ≠ "+14157386102" ∧
    (sendTemplateMessagePayload "+14157386102" "x" "athens_cruise_intro" "en" [] none).from_ =
      "+14157386102" := by
  have h := template_and_text_sender_differ "+14157386102" (by decide)
    (some "x") "hi" "x" "athens_cruise_intro" "en" [] none
  exact ⟨h.2.1, h.2.2⟩
